import Mathlib

/-!
Verification of the travel-concierge platform intent router and
personalization engine.

The embedding models the Python sources:
* `backend/api/main.py` — `TravelAgentOrchestrator.detect_intent` and the
  profile/stat/feedback HTTP endpoints;
* `travel-concierge-platform/backend/api/personalized_ai.py` — the
  `PersonalizedTravelAI` class: user profiles, intent/personality analysis,
  fallback response synthesis, suggestion/booking generation, the
  personalization score, profile updates and the feedback learner.

Strings are Lean `String`s; the Python substring test `needle in hay` is
modelled by `containsS`, `str.lower()` by `lowerS` (ASCII-faithful), and
`str.title()` by `titleS`.  Timestamps are not modelled (they never influence
control flow except for `last_interaction`, which is modelled as the number of
days since the last interaction).  Python float arithmetic on scores is
modelled over `ℚ`; every constant in the sources is a short decimal, so the
formula structure is preserved exactly.
-/

namespace TravelConcierge

/-- Boolean test that the first list is a prefix of the second
(character-by-character). -/
def beginsWith : List Char → List Char → Bool
  | [], _ => true
  | _ :: _, [] => false
  | a :: as, b :: bs => a == b && beginsWith as bs

/-- Occurrence of `needle` as a contiguous sublist of `hay`; models the Python test
`needle in hay` on strings. -/
def subOccurs (needle : List Char) : List Char → Bool
  | [] => needle.isEmpty
  | c :: t => beginsWith needle (c :: t) || subOccurs needle t

/-- Python `needle in hay` for `String`s. -/
def containsS (hay needle : String) : Bool :=
  subOccurs needle.data hay.data

/-- Python `str.lower()` (ASCII-faithful). -/
def lowerS (x : String) : String :=
  ⟨x.data.map Char.toLower⟩

/-- Python `any(w in hay for w in words)`. -/
def anyIn (words : List String) (hay : String) : Bool :=
  words.any (fun w => containsS hay w)

/-! ### Intent detection (`TravelAgentOrchestrator.detect_intent`) -/

/-- Place names recognized by `detect_intent` (main.py line 124). -/
def locationWords : List String :=
  ["goa", "kerala", "rajasthan", "himachal", "kashmir", "delhi", "mumbai", "bangalore"]

/-- Date/month tokens recognized by `detect_intent` (main.py line 125). -/
def dateWords : List String :=
  ["26th", "27th", "28th", "29th", "30th", "31st", "january", "february", "march",
   "april", "may", "june", "july", "august", "september", "october", "november",
   "december", "today", "tomorrow", "next week", "next month"]

/-- Duration tokens recognized by `detect_intent` (main.py line 126). -/
def durationWords : List String :=
  ["days", "day", "weeks", "week", "months", "month", "10 days", "7 days", "5 days", "3 days"]

/-- Planning-agent keywords (main.py line 137). -/
def planningWords : List String :=
  ["plan", "itinerary", "schedule", "trip", "vacation", "days", "week"]

/-- Booking-agent keywords (main.py line 141). -/
def bookingWords : List String :=
  ["book", "reserve", "flight", "hotel", "ticket", "accommodation"]

/-- POI-agent keywords (main.py line 145). -/
def poiWords : List String :=
  ["attraction", "visit", "see", "activity", "things to do", "sightseeing", "temple", "fort"]

/-- Trip-monitor keywords (main.py line 149). -/
def tripMonitorWords : List String :=
  ["status", "update", "weather", "delay", "cancel", "alert", "monitor"]

/-- Day-of-agent keywords (main.py line 153). -/
def dayOfWords : List String :=
  ["navigate", "direction", "where", "help", "emergency", "now", "current"]

/-- `TravelAgentOrchestrator.detect_intent` (main.py lines 119–158): keyword
routing over the lower-cased message, first matching branch wins. -/
def detect_intent (message : String) : String :=
  let message_lower := lowerS message
  let has_location := anyIn locationWords message_lower
  let has_dates := anyIn dateWords message_lower
  let has_duration := anyIn durationWords message_lower
  if has_location && (has_dates || has_duration) then "multi_agent"
  else if has_location then "place"
  else if anyIn planningWords message_lower then "planning"
  else if anyIn bookingWords message_lower then "booking"
  else if anyIn poiWords message_lower then "poi"
  else if anyIn tripMonitorWords message_lower then "trip_monitor"
  else if anyIn dayOfWords message_lower then "day_of"
  else "inspiration"

/-- Modelled from the wording of the spec for the tie-break policy: the eight rules
as an ordered list of (predicate, label) pairs, evaluated first-match-wins with
default label `inspiration`. -/
def intentRuleList : List ((String → Bool) × String) :=
  [ (fun m => anyIn locationWords m && (anyIn dateWords m || anyIn durationWords m), "multi_agent"),
    (fun m => anyIn locationWords m, "place"),
    (fun m => anyIn planningWords m, "planning"),
    (fun m => anyIn bookingWords m, "booking"),
    (fun m => anyIn poiWords m, "poi"),
    (fun m => anyIn tripMonitorWords m, "trip_monitor"),
    (fun m => anyIn dayOfWords m, "day_of") ]

/-- Label of the first rule whose predicate accepts the message; `inspiration`
when none does. -/
def firstMatchLabel : List ((String → Bool) × String) → String → String
  | [], _ => "inspiration"
  | (p, l) :: rs, m => if p m then l else firstMatchLabel rs m

/-- C1: intent classification evaluates the eight rules in the fixed priority
order (multi_agent, place, planning, booking, poi, trip_monitor, day_of,
default inspiration) and returns the label of the first rule whose keyword
predicate matches the lower-cased message; every message with both a place
name and a date-or-duration token classifies to `multi_agent`, and the empty
string classifies to `inspiration`. -/
theorem C1_intent_first_match (message : String) :
    detect_intent message = firstMatchLabel intentRuleList (lowerS message)
    ∧ (anyIn locationWords (lowerS message) = true →
        (anyIn dateWords (lowerS message) || anyIn durationWords (lowerS message)) = true →
        detect_intent message = "multi_agent")
    ∧ detect_intent "" = "inspiration" := by
  refine ⟨rfl, ?_, rfl⟩
  intro h1 h2
  simp [detect_intent, h1, h2]

/-- Witness for C1 at the concrete message "Goa for 10 days". -/
theorem C1_intent_first_match_w :
    anyIn locationWords (lowerS "Goa for 10 days") = true
    ∧ (anyIn dateWords (lowerS "Goa for 10 days")
        || anyIn durationWords (lowerS "Goa for 10 days")) = true
    ∧ detect_intent "Goa for 10 days" = "multi_agent" :=
  ⟨by decide, by decide,
    (C1_intent_first_match "Goa for 10 days").2.1 (by decide) (by decide)⟩

/-! ### User profiles (`personalized_ai.py`)

`UserProfile` models the dataclass of the same name.  Fields never read by any
verified operation (`preferences`, `accessibility_needs`, `learning_insights` —
the latter only accumulates diagnostic insight records and is never read back
into claim-relevant state) are omitted.  `last_interaction` is modelled as the
number of whole days since the last interaction (`none` = never). -/

/-- The twelve `PersonalityType` enum values. -/
def personalityValues : List String :=
  ["adventurous", "luxury", "budget", "cultural", "relaxed", "family",
   "business", "foodie", "photographer", "wellness", "backpacker", "romantic"]

/-- The eight `CommunicationStyle` enum values. -/
def communicationValues : List String :=
  ["formal", "casual", "enthusiastic", "professional", "friendly",
   "humorous", "detailed", "concise"]

/-- One `conversation_history` entry: the recorded role tag and message text
(timestamps are not modelled). -/
inductive HistEntry where
  | user (message : String)
  | ai (message : String)
deriving DecidableEq

/-- The recognized keys of the `feedback_data` dict of a feedback event; `none` (or
`[]` / `""`) models an absent key. -/
structure FeedbackData where
  rating : Option ℚ := none
  liked_suggestions : Option (List String) := none
  thumbs : Option String := none
  disliked_tone : Option String := none
  feedback_text : String := ""
  original_suggestion : String := ""
  corrected_suggestion : String := ""
deriving DecidableEq

/-- One `feedback_history` entry (`process_user_feedback` lines 830–835). -/
structure FeedbackEntry where
  typ : String
  data : FeedbackData
deriving DecidableEq

/-- The `UserProfile` dataclass (claim-relevant fields). -/
structure UserProfile where
  user_id : String
  name : Option String := none
  age_group : Option String := none
  personality_type : String := "adventurous"
  communication_style : String := "friendly"
  budget_range : Option String := none
  interests : List String := []
  travel_history : List String := []
  conversation_history : List HistEntry := []
  last_interaction : Option ℕ := none
  preferred_language : String := "en"
  voice_enabled : Bool := false
  feedback_history : List FeedbackEntry := []
  satisfaction_scores : List ℚ := []
deriving DecidableEq

/-- Python truthiness of an optional string (`if user_profile.name:`):
`None` and the empty string are falsy. -/
def truthyS : Option String → Bool
  | none => false
  | some s => !(s == "")

/-! ### Intent/personality analysis (`analyze_user_intent_and_personality`) -/

/-- The `interest_keywords` table (personalized_ai.py lines 179–192). -/
def interest_keywords : List (String × List String) :=
  [ ("adventure", ["adventure", "hiking", "trekking", "extreme", "thrill", "adrenaline", "climbing", "rafting"]),
    ("luxury", ["luxury", "5-star", "premium", "spa", "resort", "fine dining", "exclusive", "VIP"]),
    ("culture", ["culture", "history", "museum", "heritage", "traditional", "art", "architecture", "monument"]),
    ("food", ["food", "cuisine", "restaurant", "local food", "street food", "cooking", "taste", "flavor"]),
    ("nightlife", ["nightlife", "party", "club", "bar", "entertainment", "dance", "music", "drinks"]),
    ("nature", ["nature", "wildlife", "safari", "beach", "mountain", "forest", "lake", "river"]),
    ("photography", ["photography", "photos", "instagram", "scenic", "camera", "shoot", "capture", "golden hour"]),
    ("family", ["family", "kids", "children", "family-friendly", "playground", "educational", "safe"]),
    ("wellness", ["wellness", "yoga", "meditation", "spa", "massage", "detox", "health", "fitness"]),
    ("backpacking", ["backpack", "hostel", "budget travel", "local", "authentic", "independence", "solo"]),
    ("romance", ["romantic", "couple", "honeymoon", "sunset", "intimate", "cozy", "together", "love"]),
    ("business", ["business", "conference", "meeting", "networking", "work", "corporate", "professional"]) ]

/-- The interest-detection loop (lines 194–197): for each table entry in order,
append the interest label when a keyword occurs in the lower-cased message and
the label is not already present. -/
def addDetectedInterests (message_lower : String) (interests : List String) : List String :=
  interest_keywords.foldl
    (fun acc kw =>
      if kw.2.any (fun k => containsS message_lower k) then
        if kw.1 ∈ acc then acc else acc ++ [kw.1]
      else acc)
    interests

/-- Budget-preference detection (lines 200–205). -/
def detectBudget (message_lower : String) (current : Option String) : Option String :=
  if anyIn ["budget", "cheap", "affordable", "low cost"] message_lower then some "budget"
  else if anyIn ["luxury", "premium", "expensive", "high-end"] message_lower then some "luxury"
  else if anyIn ["mid-range", "moderate", "reasonable"] message_lower then some "mid-range"
  else current

/-- Communication-style detection (lines 208–211). -/
def detectStyle (message_lower : String) (current : String) : String :=
  if anyIn ["please", "kindly", "would you", "could you"] message_lower then "formal"
  else if anyIn ["awesome", "cool", "amazing", "wow"] message_lower then "enthusiastic"
  else current

/-- `analyze_user_intent_and_personality` (lines 161–217) as a profile
transformer: append the user message to `conversation_history`, truncate to the
most recent 20 entries when longer, then update interests, budget and
communication style from the lower-cased message. -/
def analyze_user_intent_and_personality (message : String) (p : UserProfile) : UserProfile :=
  let h1 := p.conversation_history ++ [HistEntry.user message]
  let h2 := if 20 < h1.length then h1.drop (h1.length - 20) else h1
  let message_lower := lowerS message
  { p with
    conversation_history := h2,
    interests := addDetectedInterests message_lower p.interests,
    budget_range := detectBudget message_lower p.budget_range,
    communication_style := detectStyle message_lower p.communication_style }

/-! ### Personalization score (`calculate_personalization_score`) -/

/-- The recent-activity bonus (lines 656–658): +0.1 when the last interaction
was within 7 days. -/
def recencyBonus : Option ℕ → ℚ
  | some d => if d < 7 then 0.1 else 0
  | none => 0

/-- `calculate_personalization_score` (lines 639–660), sequential accumulation
exactly as in the source, over `ℚ`. -/
def calculate_personalization_score (p : UserProfile) : ℚ :=
  let score : ℚ := 0
  let score := score + (if truthyS p.name then 0.1 else 0)
  let score := score + (if truthyS p.age_group then 0.1 else 0)
  let score := score + (if truthyS p.budget_range then 0.15 else 0)
  let score := score + min ((p.interests.length : ℚ) * 0.05) 0.2
  let score := score + min ((p.travel_history.length : ℚ) * 0.03) 0.15
  let score := score + min ((p.conversation_history.length : ℚ) * 0.01) 0.2
  let score := score + recencyBonus p.last_interaction
  min score 1

/-- Modelled from the formula wording of the spec: the personalization score as a
single weighted sum capped at 1.0. -/
def personalizationFormula (p : UserProfile) : ℚ :=
  min ((if truthyS p.name then 0.1 else 0)
    + (if truthyS p.age_group then 0.1 else 0)
    + (if truthyS p.budget_range then 0.15 else 0)
    + min ((p.interests.length : ℚ) * 0.05) 0.2
    + min ((p.travel_history.length : ℚ) * 0.03) 0.15
    + min ((p.conversation_history.length : ℚ) * 0.01) 0.2
    + recencyBonus p.last_interaction) 1

/-- C6: for every user profile the personalization score equals exactly the
weighted sum capped at 1.0 (+0.1 name, +0.1 age group, +0.15 budget, +0.05 per
interest capped at +0.2, +0.03 per travel-history entry capped at +0.15, +0.01
per conversation-history entry capped at +0.2, +0.1 for an interaction within
7 days), and consequently lies in [0, 1]. -/
theorem C6_personalization_score (p : UserProfile) :
    calculate_personalization_score p = personalizationFormula p
    ∧ 0 ≤ calculate_personalization_score p
    ∧ calculate_personalization_score p ≤ 1 := by
  have hmain : calculate_personalization_score p = personalizationFormula p := by
    simp only [calculate_personalization_score, personalizationFormula]
    congr 1
    ring
  refine ⟨hmain, ?_, ?_⟩
  · rw [hmain]
    unfold personalizationFormula
    have h1 : (0:ℚ) ≤ if truthyS p.name then 0.1 else 0 := by split <;> norm_num
    have h2 : (0:ℚ) ≤ if truthyS p.age_group then 0.1 else 0 := by split <;> norm_num
    have h3 : (0:ℚ) ≤ if truthyS p.budget_range then 0.15 else 0 := by split <;> norm_num
    have h4 : (0:ℚ) ≤ min ((p.interests.length : ℚ) * 0.05) 0.2 :=
      le_min (by positivity) (by norm_num)
    have h5 : (0:ℚ) ≤ min ((p.travel_history.length : ℚ) * 0.03) 0.15 :=
      le_min (by positivity) (by norm_num)
    have h6 : (0:ℚ) ≤ min ((p.conversation_history.length : ℚ) * 0.01) 0.2 :=
      le_min (by positivity) (by norm_num)
    have h7 : (0:ℚ) ≤ recencyBonus p.last_interaction := by
      unfold recencyBonus
      cases p.last_interaction with
      | none => norm_num
      | some d =>
        simp only
        split <;> norm_num
    exact le_min (by linarith) (by norm_num)
  · rw [hmain]
    exact min_le_right _ _

/-! ### Destination intelligence (`get_destination_intelligence`)

String literals below mirror the source text, with contractions expanded
(the sources contain apostrophes and mojibake emoji; neither influences any
verified property). -/

/-- One destination record of the static intelligence table. -/
structure DestIntel where
  best_time : String
  weather_now : String
  signature_experiences : List String
  hidden_gems : List String
  personality_matches : List (String × List String)
  local_tips : List String
deriving DecidableEq

/-- The `"goa"` record (personalized_ai.py lines 703–732). -/
def goaIntel : DestIntel :=
  { best_time := "November to March",
    weather_now := "Pleasant and sunny",
    signature_experiences :=
      ["Beach hopping in North Goa", "Portuguese heritage tour in Old Goa",
       "Spice plantation visits", "Sunset cruises on Mandovi River",
       "Night markets in Anjuna"],
    hidden_gems :=
      ["Butterfly Beach accessible only by boat", "Chorla Ghats waterfalls",
       "Divar Island bicycle tours", "Traditional Goan cooking classes"],
    personality_matches :=
      [("adventurous", ["Parasailing at Calangute", "Scuba diving at Grande Island"]),
       ("luxury", ["Park Hyatt Goa Resort", "Taj Exotica Goa"]),
       ("cultural", ["Basilica of Bom Jesus", "Goa State Museum"]),
       ("foodie", ["Beach shacks for seafood", "Feni tasting tours"]),
       ("romantic", ["Sunset at Chapora Fort", "Candlelight dinner on beach"])],
    local_tips :=
      ["Rent a scooter for easy transportation", "Try Goan fish curry and rice",
       "Bargain at local markets", "Respect local customs at religious sites"] }

/-- The `"kerala"` record (lines 733–762). -/
def keralaIntel : DestIntel :=
  { best_time := "October to March",
    weather_now := "Cool and comfortable",
    signature_experiences :=
      ["Houseboat cruise in Alleppey backwaters", "Tea plantation tours in Munnar",
       "Ayurveda treatments in Kovalam", "Kathakali dance performances",
       "Wildlife safari in Thekkady"],
    hidden_gems :=
      ["Varkala cliff beaches", "Chinese fishing nets in Fort Kochi",
       "Bamboo rafting in Periyar", "Village stay in Kumarakom"],
    personality_matches :=
      [("wellness", ["Ayurveda retreats", "Yoga centers in Rishikesh"]),
       ("nature", ["Periyar Wildlife Sanctuary", "Silent Valley National Park"]),
       ("luxury", ["Kumarakom Lake Resort", "Taj Malabar Resort"]),
       ("cultural", ["Jewish Synagogue in Kochi", "Mattancherry Palace"]),
       ("romantic", ["Houseboat honeymoon", "Hill station retreats"])],
    local_tips :=
      ["Book houseboats in advance", "Try Kerala sadya (traditional meal)",
       "Carry light cotton clothes", "Learn basic Malayalam phrases"] }

/-- The `"chennai"` record (lines 763–792). -/
def chennaiIntel : DestIntel :=
  { best_time := "November to February",
    weather_now := "Hot and humid",
    signature_experiences :=
      ["Marina Beach sunrise walks", "Kapaleeshwarar Temple visits",
       "Classical music concerts in December",
       "Traditional South Indian breakfast tours", "Government Museum explorations"],
    hidden_gems :=
      ["Crocodile Bank conservation center", "DakshinaChitra cultural village",
       "Pulicat Lake bird sanctuary", "Mahabalipuram stone carvings day trip"],
    personality_matches :=
      [("cultural", ["Bharatanatyam performances", "Temple architecture tours"]),
       ("foodie", ["Chettinad cuisine", "Filter coffee culture"]),
       ("business", ["IT corridor networking", "Conference venues"]),
       ("family", ["Birla Planetarium", "Guindy National Park"]),
       ("photographer", ["Marina Beach sunsets", "Colonial architecture"])],
    local_tips :=
      ["Use Chennai Metro for easy travel", "Try authentic Tamil meals on banana leaf",
       "Respect temple dress codes", "Learn a few Tamil greetings"] }

/-- The static destination-intelligence table, in dict insertion order. -/
def destination_intelligence : List (String × DestIntel) :=
  [("goa", goaIntel), ("kerala", keralaIntel), ("chennai", chennaiIntel)]

/-- Result of destination detection; `intelligence = none` models
`has_specific_data = False` with destination `"general"`. -/
structure DestResult where
  destination : String
  intelligence : Option DestIntel
deriving DecidableEq

/-- `get_destination_intelligence` (lines 698–813): first table key occurring
in the lower-cased message wins. -/
def get_destination_intelligence (message : String) : DestResult :=
  let message_lower := lowerS message
  match destination_intelligence.find? (fun d => containsS message_lower d.1) with
  | some e => { destination := e.1, intelligence := some e.2 }
  | none => { destination := "general", intelligence := none }

/-! ### Fallback response synthesis (`_generate_fallback_response`) -/

/-- Python `str.title()` (ASCII-faithful): upper-case at word starts,
lower-case elsewhere; a word boundary is a non-alphabetic character. -/
def titleChars : Bool → List Char → List Char
  | _, [] => []
  | atStart, c :: cs =>
      (if atStart then c.toUpper else c.toLower) :: titleChars (!c.isAlpha) cs

/-- Python `str.title()` on `String`s. -/
def titleS (x : String) : String :=
  ⟨titleChars true x.data⟩

/-- Python `x or default` on an optional string. -/
def orDefault (o : Option String) (d : String) : String :=
  match o with
  | some s => if s == "" then d else s
  | none => d

/-- Python `dict.get(key, [])` over an association list. -/
def lookupD (l : List (String × List String)) (k : String) : List String :=
  match l.find? (fun e => e.1 == k) with
  | some e => e.2
  | none => []

/-- `_select_travel_agent_persona` (lines 485–508). -/
def select_travel_agent_persona (p : UserProfile) (message_lower : String) : String :=
  if anyIn ["inspire", "suggest", "idea", "where", "destination"] message_lower then "inspiration"
  else if anyIn ["plan", "itinerary", "schedule", "organize"] message_lower then "planning"
  else if anyIn ["luxury", "premium", "5-star", "exclusive"] message_lower then "luxury"
  else if anyIn ["adventure", "thrill", "extreme", "outdoor"] message_lower then "adventure"
  else if anyIn ["culture", "history", "heritage", "traditional"] message_lower then "cultural"
  else if p.personality_type == "luxury" then "luxury"
  else if p.personality_type == "adventurous" then "adventure"
  else if p.personality_type == "cultural" then "cultural"
  else "general"

/-- Enumerated "   1. item" lines (fallback signature-experience block). -/
def numberLines (items : List String) : String :=
  String.join (items.enum.map (fun e => "   " ++ toString (e.1 + 1) ++ ". " ++ e.2 ++ "\n"))

/-- Bulleted "   • item" lines. -/
def bulletLines (items : List String) : String :=
  String.join (items.map (fun m => "   • " ++ m ++ "\n"))

/-- Persona-specific opener of the fallback response (lines 418–429). -/
def fallbackOpener (persona name destination : String) : String :=
  if persona == "inspiration" then
    "✨ **Travel Inspiration Agent here!** ✨\n\nHey " ++ name
      ++ "! I am absolutely excited to help you discover the magic of " ++ destination ++ "! "
  else if persona == "planning" then
    "📋 **Travel Planning Agent at your service!** 📋\n\nHi " ++ name
      ++ "! Let us turn your " ++ destination ++ " dreams into a concrete plan! "
  else if persona == "luxury" then
    "💎 **Luxury Travel Specialist here!** 💎\n\nWelcome " ++ name
      ++ "! I specialize in creating extraordinary " ++ destination
      ++ " experiences that exceed expectations. "
  else if persona == "adventure" then
    "🏔️ **Adventure Travel Expert ready!** 🏔️\n\nHey there " ++ name
      ++ "! Ready for some epic " ++ destination ++ " adventures? "
  else if persona == "cultural" then
    "🏛️ **Cultural Experience Curator here!** 🏛️\n\nGreetings " ++ name
      ++ "! Let me unveil the rich cultural tapestry of " ++ destination ++ " for you. "
  else
    "🌟 **Your Personal Travel Concierge!** 🌟\n\nHello " ++ name
      ++ "! I am here to craft the perfect " ++ destination ++ " experience just for you! "

/-- The destination-intelligence section of the fallback response
(lines 431–458): up to 3 signature experiences, up to 2 personality-matched
recommendations, up to 2 local tips, and the best-time-to-visit line. -/
def fallbackIntelBlock (intel : DestIntel) (p : UserProfile) (destination : String) : String :=
  (if intel.signature_experiences.isEmpty then "" else
    "\n\n🌟 **Must-Experience in " ++ destination ++ ":**\n"
      ++ numberLines (intel.signature_experiences.take 3))
  ++ (let personality_matches := lookupD intel.personality_matches p.personality_type
      if personality_matches.isEmpty then "" else
        "\n🎯 **Perfect for your " ++ p.personality_type ++ " personality:**\n"
          ++ bulletLines (personality_matches.take 2))
  ++ (match intel.local_tips with
      | [] => ""
      | t1 :: rest =>
        "\n💡 **Insider Tips:**\n" ++ "   • " ++ t1 ++ "\n"
          ++ (match rest with
              | [] => ""
              | t2 :: _ => "   • " ++ t2 ++ "\n"))
  ++ (if intel.best_time == "" then "" else
      "\n📅 **Best Time to Visit:** " ++ intel.best_time ++ "\n")

/-- `_generate_fallback_response` (lines 403–483): persona opener, optional
destination-intelligence section, profile-summary block, and fixed closing. -/
def generate_fallback_response (message : String) (p : UserProfile) : String :=
  let message_lower := lowerS message
  let name := orDefault p.name "valued traveler"
  let destIntel := get_destination_intelligence message
  let destination := titleS destIntel.destination
  let persona := select_travel_agent_persona p message_lower
  let intelPart :=
    match destIntel.intelligence with
    | some intel => fallbackIntelBlock intel p destination
    | none => ""
  let personalPart :=
    "\n💫 **Why I am perfect for you:**\n"
      ++ "   • I remember you are a " ++ p.personality_type ++ " traveler\n"
      ++ "   • Your " ++ p.communication_style ++ " communication style guides my responses\n"
      ++ (if truthyS p.budget_range then
            "   • I focus on " ++ orDefault p.budget_range ""
              ++ " options that match your preferences\n"
          else "")
      ++ (if p.interests.isEmpty then "" else
            "   • I know you love: " ++ String.intercalate ", " (p.interests.take 3) ++ "\n")
  let closing :=
    "\n🔄 **Let us continue planning!** I am learning about your preferences with every conversation. "
      ++ "The more we chat, the better I become at creating your perfect " ++ destination
      ++ " experience!"
      ++ "\n\n💬 **What would you like to know next?**\n"
      ++ "   • Detailed itinerary planning\n"
      ++ "   • Specific accommodation recommendations\n"
      ++ "   • Local dining and entertainment\n"
      ++ "   • Transportation and logistics\n"
  fallbackOpener persona name destination ++ intelPart ++ personalPart ++ closing

/-! ### Suggestions and booking options -/

/-- `generate_personalized_suggestions` (lines 510–551). -/
def generate_personalized_suggestions (p : UserProfile) (message : String) : List String :=
  let base1 : List String :=
    if p.personality_type == "adventurous" then
      ["Show me adventure activities in this destination",
       "Find unique off-the-beaten-path experiences",
       "What are the most thrilling things to do here?"]
    else if p.personality_type == "luxury" then
      ["Show premium resort options",
       "Find exclusive experiences and VIP services",
       "What are the most luxurious restaurants here?"]
    else if p.personality_type == "cultural" then
      ["Explore local culture and traditions",
       "Find historical sites and museums",
       "What authentic local experiences are available?"]
    else []
  let base2 := base1
    ++ (if p.interests.contains "food" then ["Discover the best local cuisine and food tours"] else [])
    ++ (if p.interests.contains "photography" then ["Find the most Instagram-worthy spots"] else [])
    ++ (if p.interests.contains "nature" then ["Explore natural attractions and wildlife"] else [])
  let message_lower := lowerS message
  let base3 := base2
    ++ (if containsS message_lower "days" then ["Create a detailed day-by-day itinerary"] else [])
    ++ (if anyIn ["january", "february", "march", "april", "may", "june"] message_lower
        then ["Check weather and seasonal highlights"] else [])
  base3.take 7

/-- One booking option (the dict shape built by
`generate_personalized_bookings`). -/
structure BookingOption where
  typ : String
  option : String
  price : String
  details : String
  availability : String
  personalization : String
deriving DecidableEq

/-- `generate_personalized_bookings` (lines 553–637); the `message` argument
is taken (as in the source) but never read. -/
def generate_personalized_bookings (p : UserProfile) (_message : String) : List BookingOption :=
  let base : List BookingOption :=
    if p.budget_range == some "luxury" then
      [{ typ := "flight", option := "Business Class - Air India", price := "₹25,000",
         details := "Premium service with lounge access",
         availability := "Available - Limited seats",
         personalization := "Selected for your luxury preferences" },
       { typ := "hotel", option := "5-Star Resort & Spa", price := "₹18,000/night",
         details := "Premium oceanview suite with spa access",
         availability := "Available - Book now for best rates",
         personalization := "Matches your luxury travel style" }]
    else if p.budget_range == some "budget" then
      [{ typ := "flight", option := "IndiGo - Economy", price := "₹6,500",
         details := "Direct flight with good timing",
         availability := "Great deal - Limited time",
         personalization := "Best value for your budget" },
       { typ := "hotel", option := "Boutique Guesthouse", price := "₹3,500/night",
         details := "Clean, comfortable with local charm",
         availability := "Available - Highly rated",
         personalization := "Perfect budget option with character" }]
    else
      [{ typ := "flight", option := "Vistara - Premium Economy", price := "₹12,000",
         details := "Comfortable flight with good service",
         availability := "Available - Good timing",
         personalization := "Great balance of comfort and value" },
       { typ := "hotel", option := "4-Star Beach Resort", price := "₹8,500/night",
         details := "Beachfront location with modern amenities",
         availability := "Available - Sea view rooms",
         personalization := "Ideal for your travel style" }]
  let withActivity :=
    if p.interests.contains "adventure" then
      base ++ [{ typ := "activity", option := "Adventure Sports Package", price := "₹4,500",
                 details := "Paragliding, water sports, and trekking",
                 availability := "Available - Adventure guaranteed",
                 personalization := "Perfect for your adventurous spirit" }]
    else if p.interests.contains "culture" then
      base ++ [{ typ := "activity", option := "Cultural Heritage Tour", price := "₹2,800",
                 details := "Guided tour of historical sites and local culture",
                 availability := "Available - Expert local guides",
                 personalization := "Tailored for culture enthusiasts" }]
    else base
  withActivity.take 5

/-! ### C5: fallback synthesis safety -/

/-- A string concatenation with a nonempty left part has nonempty data. -/
theorem data_append_ne_nil (a b : String) (h : a.data ≠ []) : (a ++ b).data ≠ [] := by
  rw [show (a ++ b).data = a.data ++ b.data from rfl]
  intro hab
  exact h (List.append_eq_nil.mp hab).1

/-- Every persona opener is a nonempty string. -/
theorem fallbackOpener_ne_nil (persona name destination : String) :
    (fallbackOpener persona name destination).data ≠ [] := by
  unfold fallbackOpener
  repeat' split
  all_goals repeat apply data_append_ne_nil
  all_goals decide

/-- C5: for every message and every user profile, fallback synthesis returns a
non-empty response text, a suggestion list of length at most 7, and a
booking-options list of length at most 5 (it is a total function, so it never
raises). -/
theorem C5_fallback_bounds (message : String) (p : UserProfile) :
    generate_fallback_response message p ≠ ""
    ∧ (generate_personalized_suggestions p message).length ≤ 7
    ∧ (generate_personalized_bookings p message).length ≤ 5 := by
  refine ⟨?_, ?_, ?_⟩
  · intro h
    have h0 : (generate_fallback_response message p).data = [] := by rw [h]
    revert h0
    simp only [generate_fallback_response]
    exact data_append_ne_nil _ _
      (data_append_ne_nil _ _ (data_append_ne_nil _ _ (fallbackOpener_ne_nil _ _ _)))
  · simp only [generate_personalized_suggestions]
    rw [List.length_take]
    exact min_le_left _ _
  · simp only [generate_personalized_bookings]
    rw [List.length_take]
    exact min_le_left _ _

/-! ### Response generation (`generate_personalized_response`) -/

/-- Outcome of the external Gemini call: generated text, or a raised error
with its message string. -/
inductive GenResult where
  | ok (text : String)
  | err (emsg : String)
deriving DecidableEq

/-- The claim-relevant fields of the chat response dict; `fallback_mode`
models the `fallback_mode: True` entry of `user_insights` in the
quota-fallback branch. -/
structure RespFields where
  response : String
  agent_used : String
  confidence : ℚ
  suggestions : List String
  booking_options : List BookingOption
  personalization_score : ℚ
  fallback_mode : Bool
deriving DecidableEq

/-- `generate_personalized_response` (lines 292–401) with the outcome of the
external call supplied as `gen`.  Returns the HTTP-level outcome
(`Except.error` = raised `HTTPException` status code) paired with the profile
state after the call; the Python method mutates the profile in place, so
mutations made before a raise persist.  On success the AI reply is appended to
`conversation_history` (without truncation) and `last_interaction` is set to
now; on a raised error whose text contains "429" or (lower-cased) "quota" the
deterministic fallback synthesizer is used; any other raised error becomes
`HTTPException(500)`. -/
def generate_personalized_response (gen : GenResult) (message : String) (p : UserProfile) :
    Except ℕ RespFields × UserProfile :=
  let p1 := analyze_user_intent_and_personality message p
  match gen with
  | GenResult.ok text =>
    let p2 := { p1 with
      conversation_history := p1.conversation_history ++ [HistEntry.ai text],
      last_interaction := some 0 }
    (Except.ok
      { response := text,
        agent_used := "Personalized Gemini AI",
        confidence := 0.95,
        suggestions := generate_personalized_suggestions p2 message,
        booking_options := generate_personalized_bookings p2 message,
        personalization_score := calculate_personalization_score p2,
        fallback_mode := false }, p2)
  | GenResult.err emsg =>
    if containsS emsg "429" || containsS (lowerS emsg) "quota" then
      (Except.ok
        { response := generate_fallback_response message p1,
          agent_used := "Personalized Fallback Agent",
          confidence := 0.7,
          suggestions := generate_personalized_suggestions p1 message,
          booking_options := generate_personalized_bookings p1 message,
          personalization_score := calculate_personalization_score p1,
          fallback_mode := true }, p1)
    else
      (Except.error 500, p1)

/-- One chat request as a profile transformer: the profile state left behind
by `generate_personalized_response`. -/
def chatStep (gen : GenResult) (message : String) (p : UserProfile) : UserProfile :=
  (generate_personalized_response gen message p).2

/-! ### C2: conversation-history window -/

/-- The user-message append inside `analyze_user_intent_and_personality`
always leaves at most 20 history entries. -/
theorem analyze_history_le (message : String) (p : UserProfile) :
    (analyze_user_intent_and_personality message p).conversation_history.length ≤ 20 := by
  unfold analyze_user_intent_and_personality
  dsimp only
  split
  · rw [List.length_drop]
    omega
  · rename_i hle
    simp only [not_lt] at hle
    exact hle

/-- The truncated window is a suffix of the appended history: the oldest
entries are the ones evicted. -/
theorem analyze_history_suffix (message : String) (p : UserProfile) :
    List.IsSuffix (analyze_user_intent_and_personality message p).conversation_history
      (p.conversation_history ++ [HistEntry.user message]) := by
  unfold analyze_user_intent_and_personality
  dsimp only
  split
  · exact List.drop_suffix _ _
  · exact List.suffix_refl _

/-- After a whole chat request the history holds at most 21 entries (at most
20 after the user-message append, plus possibly one non-truncated AI reply). -/
theorem chatStep_history_le (gen : GenResult) (message : String) (p : UserProfile) :
    (chatStep gen message p).conversation_history.length ≤ 21 := by
  have h := analyze_history_le message p
  unfold chatStep generate_personalized_response
  cases gen with
  | ok text =>
    dsimp only
    rw [List.length_append]
    simp only [List.length_cons, List.length_nil]
    omega
  | err emsg =>
    dsimp only
    split
    · exact le_trans h (by omega)
    · exact le_trans h (by omega)

/-- Bound preserved over any sequence of chat requests. -/
theorem foldl_chat_history_le (msgs : List (GenResult × String)) (p : UserProfile)
    (h : p.conversation_history.length ≤ 21) :
    ((msgs.foldl (fun q e => chatStep e.1 e.2 q) p).conversation_history.length ≤ 21) := by
  induction msgs generalizing p with
  | nil => exact h
  | cons e rest ih =>
    simp only [List.foldl_cons]
    exact ih _ (chatStep_history_le e.1 e.2 p)

/-- C2 (amended): after any sequence of chat requests the history length never
exceeds 21: every inbound user-message recording truncates to the most recent
20 entries (FIFO — the retained window is a suffix of the appended history),
but the generated-reply append does not truncate and can leave 21 entries. -/
theorem C2_history_window (gen : GenResult) (message : String) (p : UserProfile)
    (msgs : List (GenResult × String)) (h : p.conversation_history.length ≤ 21) :
    (analyze_user_intent_and_personality message p).conversation_history.length ≤ 20
    ∧ List.IsSuffix (analyze_user_intent_and_personality message p).conversation_history
        (p.conversation_history ++ [HistEntry.user message])
    ∧ (chatStep gen message p).conversation_history.length ≤ 21
    ∧ ((msgs.foldl (fun q e => chatStep e.1 e.2 q) p).conversation_history.length ≤ 21) :=
  ⟨analyze_history_le message p, analyze_history_suffix message p,
    chatStep_history_le gen message p, foldl_chat_history_le msgs p h⟩

/-- Fresh profile used by concrete evaluations. -/
def freshProfile : UserProfile :=
  { user_id := "u1" }

/-- Profile state after eleven successful chat requests starting from a fresh
profile. -/
def elevenChats : UserProfile :=
  (List.replicate 11 "hi").foldl (fun q m => chatStep (GenResult.ok "ok") m q) freshProfile

/-- C2 counterexample: eleven chat requests (each recording the inbound user
message and the generated reply) leave 21 entries in `conversation_history`,
exceeding the claimed cap of 20. -/
theorem C2_counterexample :
    elevenChats.conversation_history.length = 21
    ∧ 20 < elevenChats.conversation_history.length := by
  constructor
  · decide
  · decide

/-- Witness for C2 at a fresh profile and a single request. -/
theorem C2_history_window_w :
    freshProfile.conversation_history.length ≤ 21
    ∧ (analyze_user_intent_and_personality "hi" freshProfile).conversation_history.length ≤ 20
    ∧ List.IsSuffix (analyze_user_intent_and_personality "hi" freshProfile).conversation_history
        (freshProfile.conversation_history ++ [HistEntry.user "hi"])
    ∧ (chatStep (GenResult.ok "ok") "hi" freshProfile).conversation_history.length ≤ 21
    ∧ (([((GenResult.ok "ok"), "hi")].foldl (fun q e => chatStep e.1 e.2 q)
        freshProfile).conversation_history.length ≤ 21) :=
  ⟨by decide,
    C2_history_window (GenResult.ok "ok") "hi" freshProfile [((GenResult.ok "ok"), "hi")] (by decide)⟩

/-! ### C4: upstream-failure handling -/

/-- C4 (amended): a raised external-call error is recovered by the fallback
synthesizer exactly when its message contains "429" or, lower-cased, "quota";
every other raised error surfaces as an HTTP 500 error. -/
theorem C4_generative_failure_routing (emsg message : String) (p : UserProfile) :
    ((containsS emsg "429" || containsS (lowerS emsg) "quota") = true →
      (generate_personalized_response (GenResult.err emsg) message p).1 =
        Except.ok
          { response := generate_fallback_response message
              (analyze_user_intent_and_personality message p),
            agent_used := "Personalized Fallback Agent",
            confidence := 0.7,
            suggestions := generate_personalized_suggestions
              (analyze_user_intent_and_personality message p) message,
            booking_options := generate_personalized_bookings
              (analyze_user_intent_and_personality message p) message,
            personalization_score := calculate_personalization_score
              (analyze_user_intent_and_personality message p),
            fallback_mode := true })
    ∧ ((containsS emsg "429" || containsS (lowerS emsg) "quota") = false →
      (generate_personalized_response (GenResult.err emsg) message p).1 = Except.error 500) := by
  constructor
  · intro h
    simp [generate_personalized_response, h]
  · intro h
    simp [generate_personalized_response, h]

/-- C4 counterexample: a non-quota failure ("connection reset") is surfaced to
the caller as an HTTP 500 error instead of being recovered by the fallback
synthesizer. -/
theorem C4_counterexample :
    (generate_personalized_response (GenResult.err "connection reset") "hello"
      freshProfile).1 = Except.error 500 := by
  rfl

/-- Witness for C4 at the quota error message "429 Rate limit". -/
theorem C4_generative_failure_routing_w :
    (containsS "429 Rate limit" "429" || containsS (lowerS "429 Rate limit") "quota") = true
    ∧ (generate_personalized_response (GenResult.err "429 Rate limit") "hi" freshProfile).1 =
        Except.ok
          { response := generate_fallback_response "hi"
              (analyze_user_intent_and_personality "hi" freshProfile),
            agent_used := "Personalized Fallback Agent",
            confidence := 0.7,
            suggestions := generate_personalized_suggestions
              (analyze_user_intent_and_personality "hi" freshProfile) "hi",
            booking_options := generate_personalized_bookings
              (analyze_user_intent_and_personality "hi" freshProfile) "hi",
            personalization_score := calculate_personalization_score
              (analyze_user_intent_and_personality "hi" freshProfile),
            fallback_mode := true } :=
  ⟨by decide,
    (C4_generative_failure_routing "429 Rate limit" "hi" freshProfile).1 (by decide)⟩

/-! ### The profile store (`self.user_profiles`) and profile updates -/

/-- The in-memory profile store, an association list keyed by user id (Python
dict: unique keys, insertion order). -/
abbrev Store := List (String × UserProfile)

/-- Python dict assignment `self.user_profiles[user_id] = profile`: replace an
existing binding in place, or append a new one. -/
def setStore : Store → String → UserProfile → Store
  | [], uid, p => [(uid, p)]
  | e :: rest, uid, p =>
    if e.1 == uid then (uid, p) :: rest else e :: setStore rest uid p

/-- A profile-update request (the `UserProfileUpdate` endpoint model with
`None` fields removed, plus the `travel_history` key that
`update_user_profile` also supports for non-endpoint callers); `none` models
an absent key. -/
structure ProfileUpdates where
  name : Option String := none
  age_group : Option String := none
  personality_type : Option String := none
  communication_style : Option String := none
  budget_range : Option String := none
  interests : Option (List String) := none
  preferred_language : Option String := none
  voice_enabled : Option Bool := none
  travel_history : Option (List String) := none
deriving DecidableEq

/-- Profile construction inside `get_or_create_user_profile` (lines 146–156):
`PersonalityType(...)` / `CommunicationStyle(...)` raise `ValueError` on a
value outside the enumeration (the personality argument is evaluated first);
the supplied `interests` list is stored verbatim. -/
def createProfile (uid : String) (d : ProfileUpdates) : Except String UserProfile :=
  let pt := d.personality_type.getD "adventurous"
  if ¬ (pt ∈ personalityValues) then Except.error "ValueError: personality_type"
  else
    let cs := d.communication_style.getD "friendly"
    if ¬ (cs ∈ communicationValues) then Except.error "ValueError: communication_style"
    else Except.ok
      { user_id := uid,
        name := d.name,
        age_group := d.age_group,
        personality_type := pt,
        communication_style := cs,
        budget_range := d.budget_range,
        interests := d.interests.getD [],
        preferred_language := d.preferred_language.getD "en",
        voice_enabled := d.voice_enabled.getD false }

/-- `get_or_create_user_profile` (lines 142–159) at store level. -/
def get_or_create_user_profile (st : Store) (uid : String) (d : ProfileUpdates) :
    Except String Store :=
  match st.lookup uid with
  | some _ => Except.ok st
  | none =>
    match createProfile uid d with
    | Except.error e => Except.error e
    | Except.ok p => Except.ok (setStore st uid p)

/-- The per-field update loop of `update_user_profile` (lines 670–690) on an
existing profile: `interests` are merged as `list(set(old + new))` (modelled
as order-normalised deduplication — same members, no duplicates),
`travel_history` is extended, enum-valued strings are validated and dropped
with a warning when invalid, every other supplied field is assigned. -/
def applyUpdates (p : UserProfile) (u : ProfileUpdates) : UserProfile :=
  { p with
    name := match u.name with | some v => some v | none => p.name,
    age_group := match u.age_group with | some v => some v | none => p.age_group,
    personality_type := match u.personality_type with
      | some v => if v ∈ personalityValues then v else p.personality_type
      | none => p.personality_type,
    communication_style := match u.communication_style with
      | some v => if v ∈ communicationValues then v else p.communication_style
      | none => p.communication_style,
    budget_range := match u.budget_range with | some v => some v | none => p.budget_range,
    interests := match u.interests with
      | some v => (p.interests ++ v).dedup
      | none => p.interests,
    preferred_language := u.preferred_language.getD p.preferred_language,
    voice_enabled := u.voice_enabled.getD p.voice_enabled,
    travel_history := match u.travel_history with
      | some v => p.travel_history ++ v
      | none => p.travel_history }

/-- `update_user_profile` (lines 662–696) at store level: creation path for an
unknown user id (which re-raises any enum `ValueError`), field loop for an
existing profile. -/
def update_user_profile (st : Store) (uid : String) (u : ProfileUpdates) :
    Except String Store :=
  match st.lookup uid with
  | none => get_or_create_user_profile st uid u
  | some p => Except.ok (setStore st uid (applyUpdates p u))

/-! ### Feedback processing (`process_user_feedback`) -/

/-- The per-suggestion reinforcement step of `_reinforce_positive_patterns`
(lines 887–896): an `if/elif/elif` chain, so at most one keyword is appended
per suggestion — the first of adventure, luxury, culture that occurs in the
lower-cased suggestion and is absent from the interests. -/
def reinforceEntry (interests : List String) (suggestion : String) : List String :=
  let suggestion_lower := lowerS suggestion
  if containsS suggestion_lower "adventure" = true ∧ "adventure" ∉ interests then
    interests ++ ["adventure"]
  else if containsS suggestion_lower "luxury" = true ∧ "luxury" ∉ interests then
    interests ++ ["luxury"]
  else if containsS suggestion_lower "culture" = true ∧ "culture" ∉ interests then
    interests ++ ["culture"]
  else interests

/-- `_reinforce_positive_patterns` (lines 880–908); the trailing
`successful_patterns` append goes to `learning_insights`, which is not
modelled. -/
def reinforce_positive_patterns (p : UserProfile) (d : FeedbackData) : UserProfile :=
  match d.liked_suggestions with
  | some liked => { p with interests := liked.foldl reinforceEntry p.interests }
  | none => p

/-- `_adjust_for_negative_feedback` (lines 910–934); the
`unsuccessful_patterns` append goes to `learning_insights`, not modelled. -/
def adjust_for_negative_feedback (p : UserProfile) (d : FeedbackData) : UserProfile :=
  match d.disliked_tone with
  | some tone =>
    if tone = "too_casual" ∧ p.communication_style = "casual" then
      { p with communication_style := "professional" }
    else if tone = "too_formal" ∧ p.communication_style = "formal" then
      { p with communication_style := "friendly" }
    else if tone = "too_enthusiastic" then
      { p with communication_style := "professional" }
    else p
  | none => p

/-- `_process_detailed_feedback` (lines 936–963): budget shifts from phrases in
the lower-cased feedback text, then removal of every interest occurring in the
text when a negative-sentiment phrase occurs (the source iterates a copy and
removes matches; modelled as a filter, identical on duplicate-free lists). -/
def process_detailed_feedback (p : UserProfile) (d : FeedbackData) : UserProfile :=
  let feedback_text := lowerS d.feedback_text
  let p1 :=
    if anyIn ["too expensive", "costly", "price"] feedback_text then
      if p.budget_range ≠ some "budget" then { p with budget_range := some "budget" } else p
    else if anyIn ["luxurious", "premium", "high-end"] feedback_text then
      if p.budget_range ≠ some "luxury" then { p with budget_range := some "luxury" } else p
    else p
  if containsS feedback_text "boring" = true ∨ containsS feedback_text "not interested" = true then
    { p1 with interests := p1.interests.filter (fun i => !(containsS feedback_text i)) }
  else p1

/-- `_process_correction_feedback` (lines 965–982) only appends a correction
insight to `learning_insights`, which is not modelled: identity on the
modelled fields. -/
def process_correction_feedback (p : UserProfile) (_d : FeedbackData) : UserProfile :=
  p

/-- Python `scores[-10:]`. -/
def lastTen (l : List ℚ) : List ℚ :=
  l.drop (l.length - 10)

/-- The `average_satisfaction` field of the feedback result (line 877):
mean of the last 10 scores, or 3.0 when there are none. -/
def averageSat (scores : List ℚ) : ℚ :=
  if scores.isEmpty then 3.0
  else (lastTen scores).sum / ((lastTen scores).length : ℚ)

/-- The claim-relevant fields of the `process_user_feedback` result dict. -/
structure FbResult where
  success : Bool
  average_satisfaction : ℚ
deriving DecidableEq

/-- `process_user_feedback` (lines 815–878) at store level: unknown user ids
yield the not-found error; otherwise the feedback entry is always appended to
`feedback_history`, then the type-specific pipeline runs (`rating`: append the
numeric rating — default 3 — to `satisfaction_scores`, reinforce on ≥ 4,
adjust on ≤ 2; `thumbs`: synthetic 4.0/2.0 rating; `detailed` and
`correction` as modelled above; any other type: no further change).
`_update_learning_insights` touches only `learning_insights`, not modelled. -/
def process_user_feedback (st : Store) (uid : String) (feedback_type : String)
    (d : FeedbackData) : Except String (FbResult × Store) :=
  match st.lookup uid with
  | none => Except.error "User not found"
  | some p =>
    let p1 := { p with
      feedback_history := p.feedback_history ++ [{ typ := feedback_type, data := d }] }
    let p2 :=
      if feedback_type = "rating" then
        let rating := d.rating.getD 3
        let pr := { p1 with satisfaction_scores := p1.satisfaction_scores ++ [rating] }
        if 4 ≤ rating then reinforce_positive_patterns pr d
        else if rating ≤ 2 then adjust_for_negative_feedback pr d
        else pr
      else if feedback_type = "thumbs" then
        let rating : ℚ := if d.thumbs = some "up" then 4.0 else 2.0
        { p1 with satisfaction_scores := p1.satisfaction_scores ++ [rating] }
      else if feedback_type = "detailed" then process_detailed_feedback p1 d
      else if feedback_type = "correction" then process_correction_feedback p1 d
      else p1
    Except.ok
      ({ success := true, average_satisfaction := averageSat p2.satisfaction_scores },
        setStore st uid p2)

/-- The profile stored for `uid` after a feedback call (none when the call
errored). -/
def feedbackResultProfile (st : Store) (uid : String) (t : String) (d : FeedbackData) :
    Option UserProfile :=
  match process_user_feedback st uid t d with
  | Except.ok r => r.2.lookup uid
  | Except.error _ => none

/-! ### User statistics (`get_user_stats`) -/

/-- The stats dict returned by `get_user_stats` (lines 1029–1039). -/
structure UserStats where
  user_id : String
  profile_completeness : ℚ
  total_conversations : ℕ
  interests_discovered : ℕ
  trips_planned : ℕ
  last_interaction : Option ℕ
  personality_type : String
  communication_style : String
  voice_enabled : Bool
deriving DecidableEq

/-- `get_user_stats` (lines 1022–1039): a pure read of the store. -/
def get_user_stats (st : Store) (uid : String) : Except String UserStats :=
  match st.lookup uid with
  | none => Except.error "User not found"
  | some p => Except.ok
      { user_id := uid,
        profile_completeness := calculate_personalization_score p,
        total_conversations := p.conversation_history.length,
        interests_discovered := p.interests.length,
        trips_planned := p.travel_history.length,
        last_interaction := p.last_interaction,
        personality_type := p.personality_type,
        communication_style := p.communication_style,
        voice_enabled := p.voice_enabled }

/-- The per-user stats endpoint `/api/user-stats` (main.py lines 629–648): the
"User not found" result becomes an HTTP 404; the handler performs no store
mutation, so the store is returned unchanged. -/
def api_get_user_stats (st : Store) (uid : String) : Except ℕ UserStats × Store :=
  match get_user_stats st uid with
  | Except.error _ => (Except.error 404, st)
  | Except.ok s => (Except.ok s, st)

/-! ### Interest-adding operations (for the duplicate-freedom claim) -/

/-- The three operations that can add interests to a profile:
message-driven detection, a profile update with an interest list, and
positive-feedback reinforcement. -/
inductive InterestOp where
  | msg (message : String)
  | upd (u : ProfileUpdates)
  | fb (d : FeedbackData)

/-- Application of one interest-adding operation. -/
def applyInterestOp (p : UserProfile) : InterestOp → UserProfile
  | InterestOp.msg m => analyze_user_intent_and_personality m p
  | InterestOp.upd u => applyUpdates p u
  | InterestOp.fb d => reinforce_positive_patterns p d

/-! ### Store lemmas -/

/-- After a store write, looking the written user id up yields the written
profile. -/
theorem lookup_setStore (st : Store) (uid : String) (p : UserProfile) :
    (setStore st uid p).lookup uid = some p := by
  induction st with
  | nil => simp [setStore, List.lookup]
  | cons e rest ih =>
    unfold setStore
    by_cases h : e.1 = uid
    · simp [h, List.lookup]
    · have h' : (uid == e.1) = false := beq_eq_false_iff_ne.mpr (fun hh => h hh.symm)
      simp [h, h', List.lookup, ih]

/-! ### C9: stats lookup for an unknown user -/

/-- C9: for every user id with no stored profile, `get_user_stats` returns the
not-found error, the endpoint surfaces it as HTTP 404, and the profile store
is left unchanged — no profile is created by the read. -/
theorem C9_stats_not_found (st : Store) (uid : String) (h : st.lookup uid = none) :
    get_user_stats st uid = Except.error "User not found"
    ∧ api_get_user_stats st uid = (Except.error 404, st) := by
  have h1 : get_user_stats st uid = Except.error "User not found" := by
    unfold get_user_stats
    rw [h]
  refine ⟨h1, ?_⟩
  unfold api_get_user_stats
  rw [h1]

/-- Witness for C9 on the empty store. -/
theorem C9_stats_not_found_w :
    ([] : Store).lookup "ghost" = none
    ∧ get_user_stats [] "ghost" = Except.error "User not found"
    ∧ api_get_user_stats [] "ghost" = (Except.error 404, []) :=
  ⟨rfl, C9_stats_not_found [] "ghost" rfl⟩

/-! ### C10: unrecognized feedback type -/

/-- C10: a feedback event of an unrecognized type for an existing user is
still appended to `feedback_history`, `satisfaction_scores` and every scalar
profile field are untouched (the stored profile differs from the old one only
in `feedback_history`), and the call returns success. -/
theorem C10_unknown_feedback_type (st : Store) (uid : String) (p : UserProfile)
    (t : String) (d : FeedbackData) (h : st.lookup uid = some p)
    (h1 : t ≠ "rating") (h2 : t ≠ "thumbs") (h3 : t ≠ "detailed") (h4 : t ≠ "correction") :
    process_user_feedback st uid t d =
      Except.ok
        ({ success := true, average_satisfaction := averageSat p.satisfaction_scores },
          setStore st uid
            { p with feedback_history := p.feedback_history ++ [{ typ := t, data := d }] })
    ∧ (setStore st uid
        { p with feedback_history := p.feedback_history ++ [{ typ := t, data := d }] }).lookup
          uid =
        some { p with feedback_history := p.feedback_history ++ [{ typ := t, data := d }] } := by
  constructor
  · unfold process_user_feedback
    rw [h]
    simp [h1, h2, h3, h4]
  · exact lookup_setStore st uid _

/-- Witness for C10 with the unrecognized type "emoji_reaction". -/
theorem C10_unknown_feedback_type_w :
    ([("u1", freshProfile)] : Store).lookup "u1" = some freshProfile
    ∧ ("emoji_reaction" ≠ "rating" ∧ "emoji_reaction" ≠ "thumbs"
        ∧ "emoji_reaction" ≠ "detailed" ∧ "emoji_reaction" ≠ "correction")
    ∧ process_user_feedback [("u1", freshProfile)] "u1" "emoji_reaction" {} =
        Except.ok
          ({ success := true, average_satisfaction := averageSat freshProfile.satisfaction_scores },
            setStore [("u1", freshProfile)] "u1"
              { freshProfile with
                  feedback_history :=
                    freshProfile.feedback_history ++ [{ typ := "emoji_reaction", data := {} }] })
    ∧ (setStore [("u1", freshProfile)] "u1"
        { freshProfile with
            feedback_history :=
              freshProfile.feedback_history ++ [{ typ := "emoji_reaction", data := {} }] }).lookup
          "u1" =
        some { freshProfile with
          feedback_history :=
            freshProfile.feedback_history ++ [{ typ := "emoji_reaction", data := {} }] } :=
  ⟨rfl, ⟨by decide, by decide, by decide, by decide⟩,
    C10_unknown_feedback_type [("u1", freshProfile)] "u1" freshProfile "emoji_reaction" {}
      rfl (by decide) (by decide) (by decide) (by decide)⟩

/-! ### C3: invalid enum value on profile update -/

/-- C3 (amended): when a profile already exists for the user id, an update
carrying an out-of-enumeration `personality_type` or `communication_style`
drops exactly the offending field — the stored enum value is unchanged —
while every other supplied field is still applied (valid enum values are
applied) and no exception escapes (the call returns `ok`).  For a user id
with no stored profile the creation path instead re-raises the enum
`ValueError` (the personality argument is converted first), so no field of
the request is applied. -/
theorem C3_invalid_enum_update (st : Store) (uid : String) (p : UserProfile)
    (u : ProfileUpdates) (h : st.lookup uid = some p) :
    update_user_profile st uid u = Except.ok (setStore st uid (applyUpdates p u))
    ∧ (∀ v, u.personality_type = some v → v ∉ personalityValues →
        (applyUpdates p u).personality_type = p.personality_type)
    ∧ (∀ w, u.communication_style = some w → w ∉ communicationValues →
        (applyUpdates p u).communication_style = p.communication_style)
    ∧ (∀ v, u.personality_type = some v → v ∈ personalityValues →
        (applyUpdates p u).personality_type = v)
    ∧ (∀ w, u.communication_style = some w → w ∈ communicationValues →
        (applyUpdates p u).communication_style = w)
    ∧ (applyUpdates p u).name = u.name.or p.name
    ∧ (applyUpdates p u).age_group = u.age_group.or p.age_group
    ∧ (applyUpdates p u).budget_range = u.budget_range.or p.budget_range
    ∧ (applyUpdates p u).preferred_language = u.preferred_language.getD p.preferred_language
    ∧ (applyUpdates p u).voice_enabled = u.voice_enabled.getD p.voice_enabled
    ∧ (∀ x, x ∈ (applyUpdates p u).interests ↔ x ∈ p.interests ∨ x ∈ u.interests.getD [])
    ∧ (∀ st2 : Store, st2.lookup uid = none →
        (∀ v, u.personality_type = some v → v ∉ personalityValues →
          update_user_profile st2 uid u = Except.error "ValueError: personality_type")
        ∧ (∀ w, u.communication_style = some w → w ∉ communicationValues →
          u.personality_type.getD "adventurous" ∈ personalityValues →
          update_user_profile st2 uid u = Except.error "ValueError: communication_style")) := by
  refine ⟨?_, ?_, ?_, ?_, ?_, ?_, ?_, ?_, rfl, rfl, ?_, ?_⟩
  · unfold update_user_profile
    rw [h]
  · intro v hv hinv
    simp [applyUpdates, hv, hinv]
  · intro w hw hwinv
    simp [applyUpdates, hw, hwinv]
  · intro v hv hvv
    simp [applyUpdates, hv, hvv]
  · intro w hw hwv
    simp [applyUpdates, hw, hwv]
  · cases hu : u.name <;> simp [applyUpdates, hu, Option.or]
  · cases hu : u.age_group <;> simp [applyUpdates, hu, Option.or]
  · cases hu : u.budget_range <;> simp [applyUpdates, hu, Option.or]
  · intro x
    cases hu : u.interests with
    | none => simp [applyUpdates, hu]
    | some v' => simp [applyUpdates, hu, List.mem_dedup, List.mem_append]
  · intro st2 hn
    constructor
    · intro v hv hinv
      unfold update_user_profile get_or_create_user_profile
      rw [hn]
      simp [createProfile, hv, hinv]
    · intro w hw hwinv hpt
      unfold update_user_profile get_or_create_user_profile
      rw [hn]
      simp [createProfile, hw, hwinv, hpt]

/-- The invalid update used by concrete evaluations. -/
def invalidUpd : ProfileUpdates :=
  { personality_type := some "invalid_value", name := some "Alice" }

/-- An update with a valid personality, an out-of-enumeration communication
style and a name, used by concrete evaluations. -/
def invalidStyleUpd : ProfileUpdates :=
  { personality_type := some "luxury", communication_style := some "invalid_style",
    name := some "Bob" }

/-- A store holding exactly one fresh profile under "u1". -/
def oneUserStore : Store :=
  [("u1", freshProfile)]

/-- C3 counterexample: for a user id with no existing profile, the same
invalid-enum update raises `ValueError` out of the store (surfaced as a 500
by the endpoint) — no field of the request is applied and no profile is
created, contradicting the claim that this holds whether or not a profile
exists. -/
theorem C3_counterexample :
    update_user_profile [] "u2" invalidUpd = Except.error "ValueError: personality_type" := by
  rfl

/-- Witness for C3: an existing profile with an invalid personality update
and with an invalid communication-style update, plus both creation-path
errors on the empty store. -/
theorem C3_invalid_enum_update_w :
    oneUserStore.lookup "u1" = some freshProfile
    ∧ invalidUpd.personality_type = some "invalid_value"
    ∧ "invalid_value" ∉ personalityValues
    ∧ (applyUpdates freshProfile invalidUpd).personality_type = freshProfile.personality_type
    ∧ invalidStyleUpd.communication_style = some "invalid_style"
    ∧ "invalid_style" ∉ communicationValues
    ∧ update_user_profile oneUserStore "u1" invalidStyleUpd =
        Except.ok (setStore oneUserStore "u1" (applyUpdates freshProfile invalidStyleUpd))
    ∧ (applyUpdates freshProfile invalidStyleUpd).communication_style =
        freshProfile.communication_style
    ∧ (applyUpdates freshProfile invalidStyleUpd).personality_type = "luxury"
    ∧ (applyUpdates freshProfile invalidStyleUpd).name =
        invalidStyleUpd.name.or freshProfile.name
    ∧ ([] : Store).lookup "u1" = none
    ∧ update_user_profile [] "u1" invalidStyleUpd =
        Except.error "ValueError: communication_style"
    ∧ update_user_profile [] "u1" invalidUpd =
        Except.error "ValueError: personality_type" := by
  have t1 := C3_invalid_enum_update oneUserStore "u1" freshProfile invalidUpd rfl
  have t2 := C3_invalid_enum_update oneUserStore "u1" freshProfile invalidStyleUpd rfl
  refine ⟨rfl, rfl, by decide, ?_, rfl, by decide, ?_, ?_, ?_, ?_, rfl, ?_, ?_⟩
  · exact t1.2.1 "invalid_value" rfl (by decide)
  · exact t2.1
  · exact t2.2.2.1 "invalid_style" rfl (by decide)
  · exact t2.2.2.2.1 "luxury" rfl (by decide)
  · exact t2.2.2.2.2.2.1
  · exact ((t2.2.2.2.2.2.2.2.2.2.2.2) [] rfl).2 "invalid_style" rfl (by decide) (by decide)
  · exact ((t1.2.2.2.2.2.2.2.2.2.2.2) [] rfl).1 "invalid_value" rfl (by decide)

/-! ### C7: interests never duplicated by the three adding operations -/

/-- Appending an absent element preserves freedom from duplicates. -/
theorem nodup_append_single {α : Type} {l : List α} {a : α}
    (h : l.Nodup) (ha : a ∉ l) : (l ++ [a]).Nodup := by
  rw [List.nodup_append_comm]
  exact List.nodup_cons.mpr ⟨ha, h⟩

/-- The interest-detection fold preserves freedom from duplicates for any
keyword table. -/
theorem addDetected_nodup_aux (kws : List (String × List String)) (ml : String)
    (interests : List String) (h : interests.Nodup) :
    (kws.foldl
      (fun acc kw =>
        if kw.2.any (fun k => containsS ml k) then
          if kw.1 ∈ acc then acc else acc ++ [kw.1]
        else acc)
      interests).Nodup := by
  induction kws generalizing interests with
  | nil => exact h
  | cons kw rest ih =>
    simp only [List.foldl_cons]
    apply ih
    split
    · split
      · exact h
      · rename_i hmem
        exact nodup_append_single h hmem
    · exact h

/-- Message-driven interest detection preserves freedom from duplicates. -/
theorem analyze_interests_nodup (m : String) (p : UserProfile)
    (h : p.interests.Nodup) :
    (analyze_user_intent_and_personality m p).interests.Nodup := by
  unfold analyze_user_intent_and_personality addDetectedInterests
  exact addDetected_nodup_aux _ _ _ h

/-- A profile update leaves the interests duplicate-free (merging even
deduplicates). -/
theorem applyUpdates_interests_nodup (p : UserProfile) (u : ProfileUpdates)
    (h : p.interests.Nodup) : (applyUpdates p u).interests.Nodup := by
  unfold applyUpdates
  cases hu : u.interests with
  | none => simpa [hu] using h
  | some v =>
    simp only [hu]
    exact List.nodup_dedup _

/-- One reinforcement step preserves freedom from duplicates. -/
theorem reinforceEntry_nodup (interests : List String) (s : String)
    (h : interests.Nodup) : (reinforceEntry interests s).Nodup := by
  unfold reinforceEntry
  dsimp only
  split
  · rename_i hc
    exact nodup_append_single h hc.2
  · split
    · rename_i hc
      exact nodup_append_single h hc.2
    · split
      · rename_i hc
        exact nodup_append_single h hc.2
      · exact h

/-- The reinforcement fold preserves freedom from duplicates. -/
theorem foldl_reinforce_nodup (liked : List String) (interests : List String)
    (h : interests.Nodup) : (liked.foldl reinforceEntry interests).Nodup := by
  induction liked generalizing interests with
  | nil => exact h
  | cons s rest ih =>
    simp only [List.foldl_cons]
    exact ih _ (reinforceEntry_nodup _ _ h)

/-- Positive-feedback reinforcement preserves freedom from duplicates. -/
theorem reinforce_interests_nodup (p : UserProfile) (d : FeedbackData)
    (h : p.interests.Nodup) :
    (reinforce_positive_patterns p d).interests.Nodup := by
  unfold reinforce_positive_patterns
  cases hl : d.liked_suggestions with
  | none => simpa [hl] using h
  | some liked =>
    simp only [hl]
    exact foldl_reinforce_nodup _ _ h

/-- Each single interest-adding operation preserves freedom from
duplicates. -/
theorem applyInterestOp_nodup (p : UserProfile) (op : InterestOp)
    (h : p.interests.Nodup) : (applyInterestOp p op).interests.Nodup := by
  cases op with
  | msg m => exact analyze_interests_nodup m p h
  | upd u => exact applyUpdates_interests_nodup p u h
  | fb d => exact reinforce_interests_nodup p d h

/-- C7 (amended): starting from a profile whose interests are duplicate-free,
any sequence of the three interest-adding operations (message-driven
detection, profile updates with interest lists, positive-feedback
reinforcement) keeps the interests duplicate-free, even for overlapping
keyword sets.  (The fresh-profile creation path inside `update_user_profile`
copies the supplied interest list verbatim and can introduce duplicates; see
the counterexample.) -/
theorem C7_interests_nodup (p : UserProfile) (ops : List InterestOp)
    (h : p.interests.Nodup) :
    ((ops.foldl applyInterestOp p).interests.Nodup) := by
  induction ops generalizing p with
  | nil => exact h
  | cons op rest ih =>
    simp only [List.foldl_cons]
    exact ih _ (applyInterestOp_nodup p op h)

/-- C7 counterexample: a profile-update request carrying a duplicated
interest list for a user id with no existing profile goes through the
creation path, which stores the supplied list verbatim — the stored interests
contain a duplicate. -/
theorem C7_counterexample :
    update_user_profile [] "u3" { interests := some ["adventure", "adventure"] } =
      Except.ok [("u3", { user_id := "u3", interests := ["adventure", "adventure"] })]
    ∧ ¬ (["adventure", "adventure"] : List String).Nodup :=
  ⟨rfl, by decide⟩

/-- Witness for C7 on a fresh profile and one operation of each kind. -/
theorem C7_interests_nodup_w :
    freshProfile.interests.Nodup
    ∧ (([InterestOp.msg "hiking and spa retreat",
         InterestOp.upd { interests := some ["adventure", "culture"] },
         InterestOp.fb { liked_suggestions := some ["luxury cruise"] }].foldl
          applyInterestOp freshProfile).interests.Nodup) :=
  ⟨by decide,
    C7_interests_nodup freshProfile
      [InterestOp.msg "hiking and spa retreat",
       InterestOp.upd { interests := some ["adventure", "culture"] },
       InterestOp.fb { liked_suggestions := some ["luxury cruise"] }] (by decide)⟩

/-! ### C8: rating feedback and interest reinforcement -/

/-- C8 (amended): for an existing user, a `rating` feedback event appends the
numeric rating to `satisfaction_scores`; when the rating is at least 4, the
interests become the reinforcement fold over `liked_suggestions`, where each
entry adds at most one keyword — the first of adventure, luxury, culture that
occurs in the entry and is absent (so an entry containing "adventure" adds
"adventure" when absent; in particular rating 5 with
`liked_suggestions = ["adventure activities"]` adds "adventure"). -/
theorem C8_rating_reinforcement (st : Store) (uid : String) (p : UserProfile)
    (d : FeedbackData) (r : ℚ) (liked : List String)
    (h : st.lookup uid = some p) (hr : d.rating = some r)
    (hl : d.liked_suggestions = some liked) (h4 : 4 ≤ r) :
    ((feedbackResultProfile st uid "rating" d).map UserProfile.satisfaction_scores =
        some (p.satisfaction_scores ++ [r]))
    ∧ ((feedbackResultProfile st uid "rating" d).map UserProfile.interests =
        some (liked.foldl reinforceEntry p.interests))
    ∧ (∀ interests s, containsS (lowerS s) "adventure" = true → "adventure" ∉ interests →
        reinforceEntry interests s = interests ++ ["adventure"])
    ∧ (liked = ["adventure activities"] → "adventure" ∉ p.interests →
        (feedbackResultProfile st uid "rating" d).map UserProfile.interests =
          some (p.interests ++ ["adventure"])) := by
  have hadv : ∀ (interests : List String) (s : String),
      containsS (lowerS s) "adventure" = true → "adventure" ∉ interests →
      reinforceEntry interests s = interests ++ ["adventure"] := by
    intro interests s hc hm
    unfold reinforceEntry
    rw [if_pos ⟨hc, hm⟩]
  have key : feedbackResultProfile st uid "rating" d =
      some { p with
        feedback_history := p.feedback_history ++ [{ typ := "rating", data := d }],
        satisfaction_scores := p.satisfaction_scores ++ [r],
        interests := liked.foldl reinforceEntry p.interests } := by
    unfold feedbackResultProfile process_user_feedback
    rw [h]
    simp only [hr, Option.getD_some, if_pos rfl, if_pos h4]
    unfold reinforce_positive_patterns
    rw [hl]
    simp only []
    rw [lookup_setStore]
    simp
  refine ⟨?_, ?_, hadv, ?_⟩
  · rw [key]
    rfl
  · rw [key]
    rfl
  · intro hle hm
    rw [key]
    subst hle
    simp only [List.foldl_cons, List.foldl_nil]
    rw [hadv p.interests "adventure activities" (by decide) hm]
    rfl

/-- C8 counterexample: a liked suggestion containing both "luxury" and
"adventure" only adds "adventure" (the `elif` chain stops at the first
matching keyword), so "luxury" is not added even though it occurs as a
substring of the entry — contradicting the claim that each occurring keyword
is added. -/
theorem C8_counterexample :
    (feedbackResultProfile oneUserStore "u1" "rating"
        { rating := some 5, liked_suggestions := some ["luxury adventure retreat"] }).map
      UserProfile.interests = some ["adventure"]
    ∧ containsS (lowerS "luxury adventure retreat") "luxury" = true
    ∧ "luxury" ∉ (["adventure"] : List String) :=
  ⟨rfl, by decide, by decide⟩

/-- Witness for C8 at a concrete rating-5 event. -/
theorem C8_rating_reinforcement_w :
    oneUserStore.lookup "u1" = some freshProfile
    ∧ (({ rating := some 5, liked_suggestions := some ["adventure activities"] } :
        FeedbackData).rating = some 5)
    ∧ (({ rating := some 5, liked_suggestions := some ["adventure activities"] } :
        FeedbackData).liked_suggestions = some ["adventure activities"])
    ∧ (4 : ℚ) ≤ 5
    ∧ ((feedbackResultProfile oneUserStore "u1" "rating"
          { rating := some 5, liked_suggestions := some ["adventure activities"] }).map
        UserProfile.satisfaction_scores =
          some (freshProfile.satisfaction_scores ++ [5]))
    ∧ ((feedbackResultProfile oneUserStore "u1" "rating"
          { rating := some 5, liked_suggestions := some ["adventure activities"] }).map
        UserProfile.interests =
          some ((["adventure activities"] : List String).foldl reinforceEntry
            freshProfile.interests)) :=
  ⟨rfl, rfl, rfl, by norm_num,
    (C8_rating_reinforcement oneUserStore "u1" freshProfile
      { rating := some 5, liked_suggestions := some ["adventure activities"] } 5
      ["adventure activities"] rfl rfl rfl (by norm_num)).1,
    (C8_rating_reinforcement oneUserStore "u1" freshProfile
      { rating := some 5, liked_suggestions := some ["adventure activities"] } 5
      ["adventure activities"] rfl rfl rfl (by norm_num)).2.1⟩

end TravelConcierge
